import Mathlib

/-!
Shallow embedding of the Islamic Reels video-processing service (app.py).

The service keeps an in-memory job registry (a dictionary from job id to a
record with status, progress, message and timestamp), sweeps records older
than two hours on every status read, runs a background pipeline per job
(download both sources, probe durations, render with ffmpeg, clean up), and
builds an ffmpeg video-filter chain from an overlay specification.

Durations are modelled as rationals (Python floats carry exact decimal
values in all relevant branches), the requested maximum duration as an
integer (the code applies int(...) to it), and statuses as the literal
strings the code stores.
-/

namespace IslamicReels

def UPLOAD_FOLDER : String := "/tmp/uploads"

def OUTPUT_FOLDER : String := "/tmp/outputs"

/-- One record of the job_status dictionary: status string, progress,
message and the timestamp written by the most recent update (app.py
lines 100-107 and every job_status assignment in process_reel_async). -/
structure JobRec where
  status : String
  progress : Nat
  message : String
  timestamp : ℚ
deriving DecidableEq, Repr

/-- The job registry: the global job_status dictionary, as a partial map
from job id to record. -/
def Registry : Type := String → Option JobRec

def emptyRegistry : Registry := fun _ => none

/-- Dictionary assignment job_status[job_id] = rec. -/
def setJob (jobId : String) (rec : JobRec) (reg : Registry) : Registry :=
  fun k => if k = jobId then some rec else reg k

/-- The initial record written by create_reel (app.py lines 101-106). -/
def createJob (jobId : String) (now : ℚ) (reg : Registry) : Registry :=
  setJob jobId { status := "processing", progress := 0, message := "Job started", timestamp := now } reg

/-- cleanup_old_jobs (app.py lines 220-235): delete every record whose
stored timestamp is more than 7200 seconds before the current time. -/
def cleanup_old_jobs (now : ℚ) (reg : Registry) : Registry :=
  fun k =>
    match reg k with
    | some rec => if now - rec.timestamp > 7200 then none else some rec
    | none => none

/-- The HTTP response of the status endpoint: code and, when found, the
record returned as the body. -/
structure StatusResponse where
  httpStatus : Nat
  body : Option JobRec
deriving DecidableEq, Repr

/-- get_job_status (app.py lines 238-249): sweep first, then 404 when the
id is absent, else 200 with the record.  Also returns the swept registry,
the state the global dictionary is left in. -/
def get_job_status (now : ℚ) (reg : Registry) (jobId : String) : StatusResponse × Registry :=
  let reg2 := cleanup_old_jobs now reg
  match reg2 jobId with
  | none => ({ httpStatus := 404, body := none }, reg2)
  | some rec => ({ httpStatus := 200, body := some rec }, reg2)

/-- Duration selection (app.py lines 163-170): cap the requested maximum at
30, take the three-way minimum, and replace a non-positive result by 20. -/
def finalDuration (video_dur music_dur : ℚ) (max_duration : Int) : ℚ :=
  let actual_max : ℚ := min (max_duration : ℚ) 30
  let final_dur := min video_dur (min music_dur actual_max)
  if final_dur ≤ 0 then 20 else final_dur

/-- Modelled from the specs wording for the duration claim: the minimum of
the probed video duration, the probed audio duration, and the maximum
duration ceiling carried by the request (uncapped).  Kept separate from
finalDuration, which is the embedding of the code, for comparison. -/
def claimedDuration (video_dur music_dur : ℚ) (max_duration : Int) : ℚ :=
  min video_dur (min music_dur (max_duration : ℚ))

/-- Outcome of one subprocess.run call on the render tool: either the tool
ran to completion with an exit code, or the call raised (timeout, missing
binary, any invocation error). -/
inductive RunResult where
  | exited (code : Int)
  | raised (msg : String)
deriving DecidableEq, Repr

/-- Overlay specification: the text extracted per position by
overlays.get(pos, dict()).get(text-key, empty); none models an absent
entry or an entry without a text key. -/
structure Overlays where
  top : Option String
  center : Option String
  bottom : Option String
deriving DecidableEq, Repr

/-- The text of one overlay position after the defaulting in app.py
lines 301-303: absent collapses to the empty string. -/
def overlayText : Option String → String
  | none => ""
  | some s => s

/-- create_text_file (app.py lines 293-299): empty text produces no file,
otherwise a fresh temporary file at the path mkstemp chose (passed in as a
parameter here). -/
def create_text_file (text : String) (path : String) : Option String :=
  if text = "" then none else some path

/-- The mandatory scale-and-crop stage (app.py line 309). -/
def scale_crop : String :=
  "scale=1080:1920:force_original_aspect_ratio=increase,crop=1080:1920"

/-- The drawtext stage appended for a non-empty top overlay (line 312). -/
def drawtext_top (path : String) : String :=
  ",drawtext=textfile=\x27" ++ path ++ "\x27:fontsize=24:fontcolor=white:x=(w-text_w)/2:y=60:box=1:boxcolor=black@0.5:boxborderw=8"

/-- The drawtext stage appended for a non-empty center overlay (line 315). -/
def drawtext_center (path : String) : String :=
  ",drawtext=textfile=\x27" ++ path ++ "\x27:fontsize=40:fontcolor=white:x=(w-text_w)/2:y=(h-text_h)/2:box=1:boxcolor=black@0.65:boxborderw=12"

/-- The drawtext stage appended for a non-empty bottom overlay (line 318). -/
def drawtext_bottom (path : String) : String :=
  ",drawtext=textfile=\x27" ++ path ++ "\x27:fontsize=20:fontcolor=white:x=(w-text_w)/2:y=h-80:box=1:boxcolor=black@0.5:boxborderw=8"

/-- What process_video produces and leaves behind: the boolean it returns,
the filter chain it built, the temporary overlay-text files it created and
those it deleted, and the ffmpeg argument vector. -/
structure PVResult where
  success : Bool
  video_filter : String
  tempCreated : List String
  tempDeleted : List String
  cmd : List String
deriving DecidableEq, Repr

/-- process_video (app.py lines 288-343).  The three tmp-path parameters
stand for the paths mkstemp would return; outcome is what subprocess.run
did.  When the run raises, the except handler returns False before the
deletion loop is reached, so nothing is deleted. -/
def process_video (video_path music_path output_path : String) (overlays : Overlays)
    (duration : ℚ) (topTmp centerTmp bottomTmp : String) (outcome : RunResult) : PVResult :=
  let top_file := create_text_file (overlayText overlays.top) topTmp
  let center_file := create_text_file (overlayText overlays.center) centerTmp
  let bottom_file := create_text_file (overlayText overlays.bottom) bottomTmp
  let vf0 := scale_crop
  let vf1 := match top_file with
    | some p => vf0 ++ drawtext_top p
    | none => vf0
  let vf2 := match center_file with
    | some p => vf1 ++ drawtext_center p
    | none => vf1
  let vf3 := match bottom_file with
    | some p => vf2 ++ drawtext_bottom p
    | none => vf2
  let created := top_file.toList ++ center_file.toList ++ bottom_file.toList
  let cmd := ["ffmpeg", "-i", video_path, "-i", music_path, "-t", toString duration,
    "-vf", vf3, "-map", "0:v", "-map", "1:a",
    "-c:v", "libx264", "-preset", "veryfast", "-crf", "28",
    "-c:a", "aac", "-b:a", "128k", "-shortest", "-y", output_path]
  match outcome with
  | .exited code =>
      { success := code == 0, video_filter := vf3, tempCreated := created,
        tempDeleted := created, cmd := cmd }
  | .raised _ =>
      { success := false, video_filter := vf3, tempCreated := created,
        tempDeleted := [], cmd := cmd }

/-- Whether the render tool outcome counts as success for process_video:
returncode zero; a raised call is a failure. -/
def render_ok : RunResult → Bool
  | .exited code => code == 0
  | .raised _ => false

/-- One write to the job registry made during a job, without the timestamp
(timestamps are covered by the registry model above).  The result fields
are present only on the completed write, as in the source. -/
structure JobUpdate where
  status : String
  progress : Nat
  message : String
  videoUrl : Option String := none
  duration : Option ℚ := none
  audioReplaced : Option Bool := none
deriving DecidableEq, Repr

/-- The record create_reel writes when it accepts a request (lines 101-106). -/
def initialUpdate : JobUpdate :=
  { status := "processing", progress := 0, message := "Job started" }

/-- Environment of one background run: whether each download succeeded,
the two probed durations, and what subprocess.run did for the render. -/
structure Env where
  videoOk : Bool
  musicOk : Bool
  video_dur : ℚ
  music_dur : ℚ
  renderOutcome : RunResult
deriving DecidableEq, Repr

def video_src_path (jobId : String) : String :=
  UPLOAD_FOLDER ++ "/video_" ++ jobId ++ ".mp4"

def music_src_path (jobId : String) : String :=
  UPLOAD_FOLDER ++ "/music_" ++ jobId ++ ".mp3"

/-- What one background run produces: the sequence of registry writes it
performs, the source files its downloads created, and the files it passed
to cleanup.  Mirrors process_reel_async (app.py lines 130-217): download
both sources; on a missing download write an error record and return
without cleanup; otherwise write the 50 percent record, render via
process_video, and finish with either the error record (after cleaning the
sources) or the completed record (likewise cleaning the sources). -/
structure PipelineResult where
  trace : List JobUpdate
  downloadedSources : List String
  deletedSources : List String
deriving DecidableEq, Repr

def process_reel_async (jobId baseUrl : String) (overlays : Overlays)
    (topTmp centerTmp bottomTmp : String) (env : Env) (max_duration : Int) : PipelineResult :=
  let u1 : JobUpdate := { status := "downloading", progress := 20, message := "Downloading files..." }
  let video_path := if env.videoOk then some (video_src_path jobId) else none
  let music_path := if env.musicOk then some (music_src_path jobId) else none
  match video_path, music_path with
  | some vp, some mp =>
    let u2 : JobUpdate := { status := "processing", progress := 50, message := "Processing video..." }
    let final_dur := finalDuration env.video_dur env.music_dur max_duration
    let output_path := OUTPUT_FOLDER ++ "/reel_" ++ jobId ++ ".mp4"
    let pv := process_video vp mp output_path overlays final_dur topTmp centerTmp bottomTmp env.renderOutcome
    if pv.success then
      let public_url := baseUrl ++ "outputs/reel_" ++ jobId ++ ".mp4"
      { trace := [u1, u2,
          { status := "completed", progress := 100,
            message := "Video processing completed successfully",
            videoUrl := some public_url, duration := some final_dur,
            audioReplaced := some true }],
        downloadedSources := [vp, mp], deletedSources := [vp, mp] }
    else
      { trace := [u1, u2, { status := "error", progress := 0, message := "Processing failed" }],
        downloadedSources := [vp, mp], deletedSources := [vp, mp] }
  | _, _ =>
    { trace := [u1, { status := "error", progress := 0, message := "Download failed" }],
      downloadedSources := video_path.toList ++ music_path.toList,
      deletedSources := [] }

/-- The full sequence of registry writes a job sees: the initial write by
create_reel followed by the writes of the background run. -/
def jobTrace (jobId baseUrl : String) (overlays : Overlays)
    (topTmp centerTmp bottomTmp : String) (env : Env) (max_duration : Int) : List JobUpdate :=
  initialUpdate :: (process_reel_async jobId baseUrl overlays topTmp centerTmp bottomTmp env max_duration).trace

/-- A create-reel request body after JSON decoding: the two ids may be
absent, overlays default to the empty dictionary, maxDuration to 60. -/
structure CreateReelRequest where
  videoId : Option String
  musicId : Option String
  overlays : Overlays
  maxDuration : Option Int
deriving DecidableEq, Repr

/-- What the create-reel endpoint did: HTTP code, whether a registry record
was created, and whether the background thread was started. -/
structure CreateReelResult where
  httpStatus : Nat
  jobCreated : Bool
  pipelineStarted : Bool
deriving DecidableEq, Repr

/-- Python truthiness of an optional string: None and the empty string are
falsy. -/
def pyFalsy : Option String → Bool
  | none => true
  | some s => s == ""

/-- create_reel (app.py lines 80-123): reject when videoId or musicId is
falsy, before any record is created or any thread is started; otherwise
create the record and start the pipeline, answering 202. -/
def create_reel (data : CreateReelRequest) : CreateReelResult :=
  let _max_duration := data.maxDuration.getD 60
  if pyFalsy data.videoId || pyFalsy data.musicId then
    { httpStatus := 400, jobCreated := false, pipelineStarted := false }
  else
    { httpStatus := 202, jobCreated := true, pipelineStarted := true }

/-- Position of a status string in the sequence the specification claims:
processing, downloading, rendering, then the terminal states. -/
def statusRank (s : String) : Nat :=
  if s = "processing" then 0
  else if s = "downloading" then 1
  else if s = "rendering" then 2
  else 3

/-- Number of positions of a character list at which the word drawtext
starts; used to count text-overlay stages in a filter chain. -/
def drawtextCountAux : List Char → Nat
  | [] => 0
  | c :: rest =>
      (if List.take 8 (c :: rest) = String.toList "drawtext" then 1 else 0) + drawtextCountAux rest

/-- Number of drawtext stages appearing in a filter-chain string. -/
def drawtextCount (s : String) : Nat :=
  drawtextCountAux s.toList

/-- Helper: process_video reports success exactly when the render tool ran
to completion with exit code zero. -/
theorem process_video_success (video_path music_path output_path : String) (overlays : Overlays)
    (duration : ℚ) (topTmp centerTmp bottomTmp : String) (outcome : RunResult) :
    (process_video video_path music_path output_path overlays duration topTmp centerTmp bottomTmp outcome).success =
      render_ok outcome := by
  cases outcome <;> rfl

/-- C3 counterexample: for video 45s, music 50s and requested maximum 60s
the code renders 30s (the request ceiling is capped at 30 first), while the
claimed three-way minimum with the request ceiling is 45s. -/
theorem C3_counterexample :
    finalDuration 45 50 60 = 30 ∧ claimedDuration 45 50 60 = 45 ∧
    finalDuration 45 50 60 ≠ claimedDuration 45 50 60 := by
  refine ⟨?_, ?_, ?_⟩ <;> norm_num [finalDuration, claimedDuration]

/-- C3 (amended): whenever the minimum of video duration, audio duration
and the capped ceiling min(maxDuration, 30) is positive, the effective
render duration equals that minimum; in particular for video 45s, music
50s, maxDuration 30s it is exactly 30s. -/
theorem C3_duration_selection (video_dur music_dur : ℚ) (max_duration : Int)
    (h : 0 < min video_dur (min music_dur (min (max_duration : ℚ) 30))) :
    finalDuration video_dur music_dur max_duration =
      min video_dur (min music_dur (min (max_duration : ℚ) 30)) ∧
    finalDuration 45 50 30 = 30 := by
  constructor
  · simp only [finalDuration]
    rw [if_neg (not_le.mpr h)]
  · norm_num [finalDuration]

/-- C3 witness: the amended theorem applied at 45, 50, maxDuration 30. -/
theorem C3_duration_selection_witness :
    finalDuration 45 50 30 = min 45 (min 50 (min ((30 : Int) : ℚ) 30)) :=
  (C3_duration_selection 45 50 30 (by norm_num)).1

/-- C4: when the three-way minimum of video duration, audio duration and
the capped ceiling is zero or negative, the render duration is the fixed
default 20; the duration handed to the render tool is always positive. -/
theorem C4_positive_duration (video_dur music_dur : ℚ) (max_duration : Int) :
    (min video_dur (min music_dur (min (max_duration : ℚ) 30)) ≤ 0 →
      finalDuration video_dur music_dur max_duration = 20) ∧
    0 < finalDuration video_dur music_dur max_duration := by
  constructor
  · intro h
    simp only [finalDuration]
    rw [if_pos h]
  · simp only [finalDuration]
    split
    · norm_num
    · next h => exact lt_of_not_le h

/-- C4 witness: a corrupt probe returning 0 for the video yields the
default duration 20, which is positive. -/
theorem C4_positive_duration_witness :
    finalDuration 0 50 30 = 20 ∧ 0 < finalDuration 0 50 30 :=
  ⟨(C4_positive_duration 0 50 30).1 (by norm_num), (C4_positive_duration 0 50 30).2⟩

/-- C10: the effective render duration never exceeds 30 seconds, because
the requested ceiling is capped at 30 before the three-way minimum; using
the raw ceiling or the pre-capped ceiling gives the same duration. -/
theorem C10_duration_cap (video_dur music_dur : ℚ) (max_duration : Int) :
    finalDuration video_dur music_dur max_duration ≤ 30 ∧
    finalDuration video_dur music_dur max_duration =
      finalDuration video_dur music_dur (min max_duration 30) := by
  constructor
  · simp only [finalDuration]
    split
    · norm_num
    · exact le_trans (le_trans (min_le_right _ _) (min_le_right _ _)) (min_le_right _ _)
  · simp only [finalDuration]
    have hcast : ((min max_duration 30 : Int) : ℚ) = min (max_duration : ℚ) 30 := by
      push_cast
      rfl
    rw [hcast, min_assoc, min_self]

/-- C5: when all three overlay texts are absent or empty, the filter chain
built by process_video is exactly the mandatory scale-and-crop stage and
contains zero drawtext stages, for every run outcome. -/
theorem C5_empty_overlays (video_path music_path output_path : String) (overlays : Overlays)
    (duration : ℚ) (topTmp centerTmp bottomTmp : String) (outcome : RunResult)
    (ht : overlayText overlays.top = "") (hc : overlayText overlays.center = "")
    (hb : overlayText overlays.bottom = "") :
    (process_video video_path music_path output_path overlays duration topTmp centerTmp bottomTmp outcome).video_filter = scale_crop ∧
    drawtextCount (process_video video_path music_path output_path overlays duration topTmp centerTmp bottomTmp outcome).video_filter = 0 := by
  have h1 : create_text_file (overlayText overlays.top) topTmp = none := by
    rw [ht]; rfl
  have h2 : create_text_file (overlayText overlays.center) centerTmp = none := by
    rw [hc]; rfl
  have h3 : create_text_file (overlayText overlays.bottom) bottomTmp = none := by
    rw [hb]; rfl
  have hvf : (process_video video_path music_path output_path overlays duration topTmp centerTmp bottomTmp outcome).video_filter = scale_crop := by
    cases outcome <;> simp [process_video, h1, h2, h3]
  refine ⟨hvf, ?_⟩
  rw [hvf]
  decide

/-- C5 witness: the theorem applied to an overlay spec with an absent top
entry, an empty center text, and an absent bottom entry. -/
theorem C5_empty_overlays_witness :
    (process_video "v.mp4" "m.mp3" "o.mp4" ⟨none, some "", none⟩ 20 "t1" "t2" "t3" (.exited 0)).video_filter = scale_crop ∧
    drawtextCount (process_video "v.mp4" "m.mp3" "o.mp4" ⟨none, some "", none⟩ 20 "t1" "t2" "t3" (.exited 0)).video_filter = 0 :=
  C5_empty_overlays "v.mp4" "m.mp3" "o.mp4" ⟨none, some "", none⟩ 20 "t1" "t2" "t3" (.exited 0) rfl rfl rfl

/-- C7 counterexample: with a non-empty top overlay and a raised render
invocation (timeout or invocation error), a temporary overlay-text file
was created but nothing was deleted. -/
theorem C7_counterexample :
    (process_video "v.mp4" "m.mp3" "o.mp4" ⟨some "Top line", none, none⟩ 20 "t1.txt" "t2.txt" "t3.txt" (.raised "timeout")).tempCreated = ["t1.txt"] ∧
    (process_video "v.mp4" "m.mp3" "o.mp4" ⟨some "Top line", none, none⟩ 20 "t1.txt" "t2.txt" "t3.txt" (.raised "timeout")).tempDeleted = [] :=
  ⟨rfl, rfl⟩

/-- C7 (amended): the temporary overlay-text files are all deleted when
the render tool runs to completion, whatever its exit code; when the
invocation raises (timeout or invocation error) none of them is deleted,
because the except handler returns before the deletion loop. -/
theorem C7_temp_file_deletion (video_path music_path output_path : String) (overlays : Overlays)
    (duration : ℚ) (topTmp centerTmp bottomTmp : String) :
    (∀ code : Int,
      (process_video video_path music_path output_path overlays duration topTmp centerTmp bottomTmp (.exited code)).tempDeleted =
      (process_video video_path music_path output_path overlays duration topTmp centerTmp bottomTmp (.exited code)).tempCreated) ∧
    (∀ msg : String,
      (process_video video_path music_path output_path overlays duration topTmp centerTmp bottomTmp (.raised msg)).tempDeleted = []) :=
  ⟨fun _ => rfl, fun _ => rfl⟩

/-- C9: a creation request with videoId or musicId absent is answered with
HTTP 400, creates no job record, and starts no background pipeline. -/
theorem C9_missing_field_validation (data : CreateReelRequest)
    (h : data.videoId = none ∨ data.musicId = none) :
    (create_reel data).httpStatus = 400 ∧
    (create_reel data).jobCreated = false ∧
    (create_reel data).pipelineStarted = false := by
  rcases h with h | h <;> simp [create_reel, pyFalsy, h]

/-- C9 witness: the theorem applied to a request that carries a musicId
but no videoId. -/
theorem C9_missing_field_validation_witness :
    (create_reel { videoId := none, musicId := some "m123", overlays := ⟨none, none, none⟩, maxDuration := none }).httpStatus = 400 ∧
    (create_reel { videoId := none, musicId := some "m123", overlays := ⟨none, none, none⟩, maxDuration := none }).jobCreated = false ∧
    (create_reel { videoId := none, musicId := some "m123", overlays := ⟨none, none, none⟩, maxDuration := none }).pipelineStarted = false :=
  C9_missing_field_validation { videoId := none, musicId := some "m123", overlays := ⟨none, none, none⟩, maxDuration := none } (Or.inl rfl)

/-- C1 counterexample: on a fully successful run the sequence of statuses
written for a job is processing, downloading, processing, completed; the
third write moves from downloading back to processing, strictly earlier in
the claimed sequence, so the claimed monotonicity fails. -/
theorem C1_counterexample :
    ¬ List.Chain' (fun a b => statusRank a ≤ statusRank b)
      (List.map JobUpdate.status
        (jobTrace "j1" "https://api.example.com/" ⟨none, none, none⟩ "t1" "t2" "t3"
          ⟨true, true, 45, 50, .exited 0⟩ 30)) := by
  have h : List.map JobUpdate.status
      (jobTrace "j1" "https://api.example.com/" ⟨none, none, none⟩ "t1" "t2" "t3"
        ⟨true, true, 45, 50, .exited 0⟩ 30) =
      ["processing", "downloading", "processing", "completed"] := rfl
  rw [h]
  simp [List.chain'_cons, statusRank]

/-- C1 (amended): the statuses written for a job form one of exactly three
sequences: processing, downloading, error (download failure); processing,
downloading, processing, error (render failure); or processing,
downloading, processing, completed (success).  The rendering status is
never written, the job moves back from downloading to processing before
rendering, and a terminal status is written exactly once, as the last
update. -/
theorem C1_status_sequences (jobId baseUrl : String) (overlays : Overlays)
    (topTmp centerTmp bottomTmp : String) (env : Env) (max_duration : Int) :
    List.map JobUpdate.status (jobTrace jobId baseUrl overlays topTmp centerTmp bottomTmp env max_duration) =
        ["processing", "downloading", "error"] ∨
    List.map JobUpdate.status (jobTrace jobId baseUrl overlays topTmp centerTmp bottomTmp env max_duration) =
        ["processing", "downloading", "processing", "error"] ∨
    List.map JobUpdate.status (jobTrace jobId baseUrl overlays topTmp centerTmp bottomTmp env max_duration) =
        ["processing", "downloading", "processing", "completed"] := by
  unfold jobTrace process_reel_async
  rcases env with ⟨vo, mo, vd, md, ro⟩
  cases vo <;> cases mo <;> simp [initialUpdate]
  split <;> simp

/-- C6 counterexample: when the music download fails, the progress values
written for the job are 0, 20, 0, which is not monotonically
non-decreasing. -/
theorem C6_counterexample :
    ¬ List.Chain' (fun a b : JobUpdate => a.progress ≤ b.progress)
      (jobTrace "j1" "https://api.example.com/" ⟨none, none, none⟩ "t1" "t2" "t3"
        ⟨true, false, 45, 50, .exited 0⟩ 30) := by
  have h : jobTrace "j1" "https://api.example.com/" ⟨none, none, none⟩ "t1" "t2" "t3"
      ⟨true, false, 45, 50, .exited 0⟩ 30 =
      [{ status := "processing", progress := 0, message := "Job started" },
       { status := "downloading", progress := 20, message := "Downloading files..." },
       { status := "error", progress := 0, message := "Download failed" }] := rfl
  rw [h]
  simp [List.chain'_cons]

/-- C6 (amended): every progress value written for a job lies between 0
and 100, and progress is non-decreasing across updates except that a
write of the error status resets progress to 0. -/
theorem C6_progress_bounds (jobId baseUrl : String) (overlays : Overlays)
    (topTmp centerTmp bottomTmp : String) (env : Env) (max_duration : Int) :
    (∀ u ∈ jobTrace jobId baseUrl overlays topTmp centerTmp bottomTmp env max_duration, u.progress ≤ 100) ∧
    List.Chain' (fun a b => a.progress ≤ b.progress ∨ b.status = "error")
      (jobTrace jobId baseUrl overlays topTmp centerTmp bottomTmp env max_duration) := by
  unfold jobTrace process_reel_async
  rcases env with ⟨vo, mo, vd, md, ro⟩
  cases vo <;> cases mo <;> simp [initialUpdate]
  split <;> simp

/-- C6 witness: the amended theorem applied on a successful run bounds the
progress of the initial record. -/
theorem C6_progress_bounds_witness :
    initialUpdate.progress ≤ 100 :=
  (C6_progress_bounds "j1" "https://api.example.com/" ⟨none, none, none⟩ "t1" "t2" "t3"
    ⟨true, true, 45, 50, .exited 0⟩ 30).1 initialUpdate (by decide)

/-- C8 counterexample: when the video download succeeds but the music
download fails, the job ends in error but the downloaded video source file
is never deleted. -/
theorem C8_counterexample :
    (process_reel_async "j1" "https://api.example.com/" ⟨none, none, none⟩ "t1" "t2" "t3"
        ⟨true, false, 45, 50, .exited 0⟩ 30).downloadedSources = ["/tmp/uploads/video_j1.mp4"] ∧
    (process_reel_async "j1" "https://api.example.com/" ⟨none, none, none⟩ "t1" "t2" "t3"
        ⟨true, false, 45, 50, .exited 0⟩ 30).deletedSources = [] ∧
    (List.map JobUpdate.status
        (process_reel_async "j1" "https://api.example.com/" ⟨none, none, none⟩ "t1" "t2" "t3"
          ⟨true, false, 45, 50, .exited 0⟩ 30).trace).getLast? = some "error" :=
  ⟨rfl, rfl, rfl⟩

/-- C8 (amended): on a download failure the pipeline performs exactly one
more write, the error record with message Download failed, and deletes no
source files; on a render failure it ends with the error record with
message Processing failed and deletes both downloaded sources; in every
case the pipeline performs at most three writes and never restarts a
stage, so there is no retry. -/
theorem C8_failure_handling (jobId baseUrl : String) (overlays : Overlays)
    (topTmp centerTmp bottomTmp : String) (env : Env) (max_duration : Int) :
    ((env.videoOk && env.musicOk) = false →
      (process_reel_async jobId baseUrl overlays topTmp centerTmp bottomTmp env max_duration).trace.getLast? =
        some { status := "error", progress := 0, message := "Download failed" } ∧
      (process_reel_async jobId baseUrl overlays topTmp centerTmp bottomTmp env max_duration).deletedSources = []) ∧
    (env.videoOk = true → env.musicOk = true → render_ok env.renderOutcome = false →
      (process_reel_async jobId baseUrl overlays topTmp centerTmp bottomTmp env max_duration).trace.getLast? =
        some { status := "error", progress := 0, message := "Processing failed" } ∧
      (process_reel_async jobId baseUrl overlays topTmp centerTmp bottomTmp env max_duration).deletedSources =
        [video_src_path jobId, music_src_path jobId]) ∧
    (process_reel_async jobId baseUrl overlays topTmp centerTmp bottomTmp env max_duration).trace.length ≤ 3 := by
  rcases env with ⟨vo, mo, vd, md, ro⟩
  refine ⟨?_, ?_, ?_⟩
  · intro hfail
    cases vo <;> cases mo
    · exact ⟨rfl, rfl⟩
    · exact ⟨rfl, rfl⟩
    · exact ⟨rfl, rfl⟩
    · simp at hfail
  · intro hv hm hro
    subst hv
    subst hm
    simp only at hro
    simp [process_reel_async, process_video_success, hro]
  · cases vo <;> cases mo <;> simp [process_reel_async]
    split <;> simp

/-- C8 witness: the amended theorem applied where the music download
fails shows no source file is deleted. -/
theorem C8_failure_handling_witness :
    (process_reel_async "j1" "https://api.example.com/" ⟨none, none, none⟩ "t1" "t2" "t3"
        ⟨true, false, 45, 50, .exited 0⟩ 30).deletedSources = [] :=
  ((C8_failure_handling "j1" "https://api.example.com/" ⟨none, none, none⟩ "t1" "t2" "t3"
      ⟨true, false, 45, 50, .exited 0⟩ 30).1 (by decide)).2

/-- C2 counterexample: a job created at time 0 and last updated at time
200 has its creation timestamp more than 7200 seconds before a sweep at
time 7201, yet the status query at 7201 still answers 200, because the
sweep compares against the timestamp rewritten by the update, not the
creation time. -/
theorem C2_counterexample :
    ((7201 : ℚ) - 0 > 7200) ∧
    (get_job_status 7201
        (setJob "j1"
          { status := "completed", progress := 100,
            message := "Video processing completed successfully", timestamp := 200 }
          (createJob "j1" 0 emptyRegistry)) "j1").1.httpStatus = 200 := by
  refine ⟨by norm_num, ?_⟩
  have h1 : ¬ ((7201 : ℚ) - 200 > 7200) := by norm_num
  simp [get_job_status, cleanup_old_jobs, setJob, createJob, emptyRegistry, h1]

/-- C2 (amended): after the sweep that runs on every status read, every
record whose stored timestamp, the time of its most recent update, is more
than 7200 seconds before the sweep time has been removed, and the status
query for it answers 404; the registry left behind by the read is exactly
the swept registry. -/
theorem C2_sweep_expiry (now : ℚ) (reg : Registry) (jobId : String) (rec : JobRec)
    (hlook : reg jobId = some rec) (hold : now - rec.timestamp > 7200) :
    cleanup_old_jobs now reg jobId = none ∧
    (get_job_status now reg jobId).1.httpStatus = 404 ∧
    (get_job_status now reg jobId).2 = cleanup_old_jobs now reg := by
  have hc : cleanup_old_jobs now reg jobId = none := by
    unfold cleanup_old_jobs
    rw [hlook]
    simp [hold]
  refine ⟨hc, ?_, ?_⟩
  · unfold get_job_status
    simp only [hc]
  · unfold get_job_status
    simp only [hc]

/-- C2 witness: the amended theorem applied to a registry holding one
fresh job created at time 0, swept at time 7201. -/
theorem C2_sweep_expiry_witness :
    cleanup_old_jobs 7201 (createJob "j1" 0 emptyRegistry) "j1" = none ∧
    (get_job_status 7201 (createJob "j1" 0 emptyRegistry) "j1").1.httpStatus = 404 ∧
    (get_job_status 7201 (createJob "j1" 0 emptyRegistry) "j1").2 =
      cleanup_old_jobs 7201 (createJob "j1" 0 emptyRegistry) :=
  C2_sweep_expiry 7201 (createJob "j1" 0 emptyRegistry) "j1"
    { status := "processing", progress := 0, message := "Job started", timestamp := 0 }
    rfl (by norm_num)

end IslamicReels
